import Mathlib

/-!
Verification of the `oside-tests` differential harness (`src/main.rs`).

The program under study is a single `main` function that:
  1. optionally reloads its command-line options from an override file,
     parsing the file first as JSON and, on failure, as YAML
     (`main.rs` lines 77-90);
  2. constructs an embedded Python interpreter, exiting with code 1 when
     construction fails (`main.rs` lines 105, 159-162);
  3. imports the scapy namespace and evaluates `bytes(<scapy_expr>)` in
     the interpreter to obtain raw packet bytes (`main.rs` lines 114-123);
  4. decodes the bytes through the external `oside` codec and serializes
     the resulting layer stack with `serde_json` (`main.rs` lines 125-128);
  5. optionally prints the serialized JSON, and optionally reads a JSON
     oracle document from stdin and panics on any difference between the
     two parsed `serde_json::Value`s (`main.rs` lines 129-152).

External collaborators (the Python runtime, the oside codec, the serde
serializer and parsers, the file system, stdin) are modelled as explicit
parameters of the embedding: `main` only composes their results, and every
composition step below is translated directly from the Rust source.
-/

/-! ## JSON values

Model of `serde_json::Value`.  Objects are association lists; `serde_json`
stores objects in a `BTreeMap`, so parsed objects hold their entries in
sorted key order and map equality coincides with structural equality of the
entry lists.  Numbers are modelled as integers, which covers every value
this harness manipulates. -/

inductive Json where
  | null
  | bool (b : Bool)
  | num (n : Int)
  | str (s : String)
  | arr (elems : List Json)
  | obj (fields : List (String × Json))

mutual

/-- Structural equality of JSON values: the `PartialEq` used by
`j0 != j1` in `main.rs` line 146. -/
def Json.beq : Json → Json → Bool
  | .null, .null => true
  | .bool a, .bool b => a == b
  | .num a, .num b => a == b
  | .str a, .str b => a == b
  | .arr a, .arr b => Json.beqArr a b
  | .obj a, .obj b => Json.beqObj a b
  | _, _ => false

/-- Element-wise equality of JSON arrays. -/
def Json.beqArr : List Json → List Json → Bool
  | [], [] => true
  | x :: xs, y :: ys => Json.beq x y && Json.beqArr xs ys
  | _, _ => false

/-- Entry-wise equality of JSON objects. -/
def Json.beqObj : List (String × Json) → List (String × Json) → Bool
  | [], [] => true
  | (k1, v1) :: xs, (k2, v2) :: ys => k1 == k2 && Json.beq v1 v2 && Json.beqObj xs ys
  | _, _ => false

end

mutual

theorem Json.beq_refl : ∀ j, Json.beq j j = true
  | .null => rfl
  | .bool b => by simp [Json.beq]
  | .num n => by simp [Json.beq]
  | .str s => by simp [Json.beq]
  | .arr xs => by simp [Json.beq, Json.beqArr_refl xs]
  | .obj kvs => by simp [Json.beq, Json.beqObj_refl kvs]

theorem Json.beqArr_refl : ∀ l, Json.beqArr l l = true
  | [] => rfl
  | x :: xs => by simp [Json.beqArr, Json.beq_refl x, Json.beqArr_refl xs]

theorem Json.beqObj_refl : ∀ l, Json.beqObj l l = true
  | [] => rfl
  | (k, v) :: xs => by simp [Json.beqObj, Json.beq_refl v, Json.beqObj_refl xs]

end

mutual

theorem Json.eq_of_beq : ∀ a b, Json.beq a b = true → a = b
  | .null, .null, _ => rfl
  | .bool a, .bool b, h => by simp [Json.beq] at h; simp [h]
  | .num a, .num b, h => by simp [Json.beq] at h; simp [h]
  | .str a, .str b, h => by simp [Json.beq] at h; simp [h]
  | .arr a, .arr b, h => by
      simp only [Json.beq] at h
      simp [Json.eqArr_of_beq a b h]
  | .obj a, .obj b, h => by
      simp only [Json.beq] at h
      simp [Json.eqObj_of_beq a b h]
  | .null, .bool _, h => by simp [Json.beq] at h
  | .null, .num _, h => by simp [Json.beq] at h
  | .null, .str _, h => by simp [Json.beq] at h
  | .null, .arr _, h => by simp [Json.beq] at h
  | .null, .obj _, h => by simp [Json.beq] at h
  | .bool _, .null, h => by simp [Json.beq] at h
  | .bool _, .num _, h => by simp [Json.beq] at h
  | .bool _, .str _, h => by simp [Json.beq] at h
  | .bool _, .arr _, h => by simp [Json.beq] at h
  | .bool _, .obj _, h => by simp [Json.beq] at h
  | .num _, .null, h => by simp [Json.beq] at h
  | .num _, .bool _, h => by simp [Json.beq] at h
  | .num _, .str _, h => by simp [Json.beq] at h
  | .num _, .arr _, h => by simp [Json.beq] at h
  | .num _, .obj _, h => by simp [Json.beq] at h
  | .str _, .null, h => by simp [Json.beq] at h
  | .str _, .bool _, h => by simp [Json.beq] at h
  | .str _, .num _, h => by simp [Json.beq] at h
  | .str _, .arr _, h => by simp [Json.beq] at h
  | .str _, .obj _, h => by simp [Json.beq] at h
  | .arr _, .null, h => by simp [Json.beq] at h
  | .arr _, .bool _, h => by simp [Json.beq] at h
  | .arr _, .num _, h => by simp [Json.beq] at h
  | .arr _, .str _, h => by simp [Json.beq] at h
  | .arr _, .obj _, h => by simp [Json.beq] at h
  | .obj _, .null, h => by simp [Json.beq] at h
  | .obj _, .bool _, h => by simp [Json.beq] at h
  | .obj _, .num _, h => by simp [Json.beq] at h
  | .obj _, .str _, h => by simp [Json.beq] at h
  | .obj _, .arr _, h => by simp [Json.beq] at h

theorem Json.eqArr_of_beq : ∀ a b, Json.beqArr a b = true → a = b
  | [], [], _ => rfl
  | x :: xs, y :: ys, h => by
      simp only [Json.beqArr, Bool.and_eq_true] at h
      simp [Json.eq_of_beq x y h.1, Json.eqArr_of_beq xs ys h.2]
  | [], _ :: _, h => by simp [Json.beqArr] at h
  | _ :: _, [], h => by simp [Json.beqArr] at h

theorem Json.eqObj_of_beq : ∀ a b, Json.beqObj a b = true → a = b
  | [], [], _ => rfl
  | (k1, v1) :: xs, (k2, v2) :: ys, h => by
      simp only [Json.beqObj, Bool.and_eq_true, beq_iff_eq] at h
      simp [h.1.1, Json.eq_of_beq v1 v2 h.1.2, Json.eqObj_of_beq xs ys h.2]
  | [], _ :: _, h => by simp [Json.beqObj] at h
  | _ :: _, [], h => by simp [Json.beqObj] at h

end

theorem Json.beq_iff (a b : Json) : Json.beq a b = true ↔ a = b :=
  ⟨Json.eq_of_beq a b, fun h => h ▸ Json.beq_refl a⟩

instance : DecidableEq Json := fun a b =>
  decidable_of_iff (Json.beq a b = true) (Json.beq_iff a b)

theorem Json.beq_eq_false_iff (a b : Json) : Json.beq a b = false ↔ a ≠ b := by
  have h := Json.beq_iff a b
  cases hb : Json.beq a b <;> simp [hb] at h ⊢ <;> simp [h]

mutual

/-- Plain-text rendering of a JSON value, standing in for the `{:#?}`
Debug formatting used in the mismatch panic message of `main.rs`
lines 147-150: an injective rendering that contains both values in full. -/
def Json.render : Json → String
  | .null => "null"
  | .bool b => toString b
  | .num n => toString n
  | .str s => "\x22" ++ s ++ "\x22"
  | .arr xs => "[" ++ Json.renderArr xs ++ "]"
  | .obj kvs => "\x7b" ++ Json.renderObj kvs ++ "\x7d"

/-- Renders the element list of a JSON array. -/
def Json.renderArr : List Json → String
  | [] => ""
  | [x] => Json.render x
  | x :: xs => Json.render x ++ ", " ++ Json.renderArr xs

/-- Renders the entry list of a JSON object. -/
def Json.renderObj : List (String × Json) → String
  | [] => ""
  | [(k, v)] => "\x22" ++ k ++ "\x22: " ++ Json.render v
  | (k, v) :: kvs => "\x22" ++ k ++ "\x22: " ++ Json.render v ++ ", " ++ Json.renderObj kvs

end

/-! ## Command-line options and the override loader

`struct Opts` from `main.rs` lines 49-71, and the option-override block of
`main` (lines 77-90):

```rust
let opts = if let Some(fname) = &opts.options_override {
    if let Ok(data) = std::fs::read_to_string(&fname) {
        let res = serde_json::from_str(&data);
        if res.is_ok() { res.unwrap() } else { serde_yaml::from_str(&data).unwrap() }
    } else { opts }
} else { opts };
```
-/

/-- The clap options structure (`main.rs` lines 49-71). `verbose` is an
`i32` occurrence count. -/
structure Opts where
  scapy_expr : String
  options_override : Option String
  print_json : Bool
  verify_json : Bool
  verbose : Int
deriving DecidableEq

/-- The field map of a parsed override document: which `Opts` fields the
document carries, before serde's derived deserialization of `Opts` is
applied to it. An absent field is `none`; a present `options_override`
field carries an `Option String` because JSON `null` deserializes to
`None`. -/
structure OptsDoc where
  scapy_expr : Option String
  options_override : Option (Option String)
  print_json : Option Bool
  verify_json : Option Bool
  verbose : Option Int
deriving DecidableEq

/-- Serde's derived `Deserialize` for `Opts` applied to a parsed field map:
every non-`Option` field must be present (a missing one is a deserialization
error), while the `Option String` field `options_override` defaults to
`None` when absent. -/
def deserializeOpts (d : OptsDoc) : Option Opts :=
  match d.scapy_expr, d.print_json, d.verify_json, d.verbose with
  | some se, some pj, some vj, some vb =>
      some ⟨se, d.options_override.getD none, pj, vj, vb⟩
  | _, _, _, _ => none

/-- Abstraction of one override file's text by its two parse outcomes:
`jsonDoc` is the field map obtained when `serde_json` syntax analysis of the
text succeeds, `yamlDoc` the one when `serde_yaml` succeeds (`none` when the
respective parse fails at the syntax level). -/
structure RawDoc where
  jsonDoc : Option OptsDoc
  yamlDoc : Option OptsDoc
deriving DecidableEq

/-- Result of the option-override block: either the effective options, or a
panic (the `serde_yaml::from_str(&data).unwrap()` on line 83 panicking). -/
inductive LoadResult where
  | ok (opts : Opts)
  | panicked
deriving DecidableEq

/-- The option-override block of `main` (`main.rs` lines 77-90).
`fs fname` is `std::fs::read_to_string(fname)` abstracted to the parse
outcomes of the text read (`none` when the read fails).
`serde_json::from_str::<Opts>` succeeds exactly when the JSON syntax parse
succeeds and the field map deserializes; likewise for YAML. When both
fail, line 83's `.unwrap()` panics. -/
def loadOverride (opts : Opts) (fs : String → Option RawDoc) : LoadResult :=
  match opts.options_override with
  | none => .ok opts
  | some fname =>
    match fs fname with
    | none => .ok opts
    | some raw =>
      match raw.jsonDoc.bind deserializeOpts with
      | some o => .ok o
      | none =>
        match raw.yamlDoc.bind deserializeOpts with
        | some o => .ok o
        | none => .panicked

/-! ## The oracle comparator

`main.rs` lines 144-151: both documents are parsed to `serde_json::Value`
and compared with `!=`; on difference the program panics with a message
carrying both complete values. -/

/-- Terminal result of the comparison (spec §3 `ComparisonResult`): the
mismatch payload is exactly what the panic message of lines 147-150
carries — the two complete parsed values. -/
inductive ComparisonResult where
  | isMatch
  | mismatch (expected obtained : Json)
deriving DecidableEq

/-- The comparison of `main.rs` lines 146-151: `j0 != j1` on the two parsed
`serde_json::Value`s, reporting both full values on difference. -/
def compareJson (j0 j1 : Json) : ComparisonResult :=
  if Json.beq j0 j1 then .isMatch else .mismatch j0 j1

/-- The panic message of `main.rs` lines 147-150, carrying both complete
values. -/
def mismatchMsg (j0 j1 : Json) : String :=
  "JSON mismatch!\n === expected: " ++ Json.render j0 ++ "\n === obtained: " ++ Json.render j1

/-! ## The evaluator adapter

`main.rs` lines 119-123:

```rust
let x: Vec<u8> = py.eval(&format!("bytes({})", &opts.scapy_expr), None, None)
    .unwrap().extract().unwrap();
```

`py.eval` returns a typed `PyResult` (an error value carrying the Python
error message on syntax error or undefined symbol), and `.extract()`
returns a typed `PyResult<Vec<u8>>` (an error when the evaluated object
cannot be converted to a byte sequence).  The runtime is abstracted as the
pair of functions `evalFn` (evaluation of a source string to a Python
object) and `extractFn` (conversion of a Python object to bytes). -/

/-- The evaluator adapter: wrap the expression in `bytes(...)`, evaluate,
and extract the result as a byte sequence. The error case is the typed
`PyResult` error carrying the runtime's message. -/
def evalAdapter {PyObj : Type} (evalFn : String → Except String PyObj)
    (extractFn : PyObj → Except String (List Nat)) (expr : String) :
    Except String (List Nat) :=
  (evalFn ("bytes(" ++ expr ++ ")")).bind extractFn

/-! ## The orchestrator

Embedding of `main` (`main.rs` lines 73-168).  The run is modelled as a
trace of observable events (stdout prints, stderr prints, the stdin read)
together with a terminal outcome: a call of `std::process::exit` with a
code, or a panic (which in Rust aborts the process with a non-zero,
implementation-defined status, after printing the panic message). -/

/-- An observable I/O event of one run of `main`. -/
inductive Event where
  | printStdout (s : String)
  | printStderr (s : String)
  | readStdin
deriving DecidableEq

/-- Terminal outcome: `std::process::exit(code)` (line 167) or a panic. -/
inductive Outcome where
  | exitCode (code : Nat)
  | panicked (msg : String)
deriving DecidableEq

/-- One run of `main`: the ordered event trace and the terminal outcome. -/
structure RunResult where
  events : List Event
  outcome : Outcome
deriving DecidableEq

/-- The external collaborators `main` composes, abstracted as functions:
`fs` is `std::fs::read_to_string` (abstracted to parse outcomes, see
`RawDoc`); `pyInit` is `MainPythonInterpreter::new(config)`; `pyRun` is
`py.run`; `pyEval`/`pyExtract` are `py.eval`/`.extract()`;
`decode` is oside's `Ether!().decode(&x)` returning the decoded layer
stack and the consumed byte count; `serializeLayers` is
`serde_json::to_string(&pkt.layers)` (total: serialization of oside
layers cannot fail); `parseJson` is `serde_json::from_str::<Value>`;
`stdin` is the full standard-input byte stream decoded as UTF-8 (`none`
when the bytes are not valid UTF-8, making `String::from_utf8(..).unwrap()`
panic). -/
structure Env (PyObj Layers : Type) where
  fs : String → Option RawDoc
  pyInit : Except String Unit
  pyRun : String → Except String Unit
  pyEval : String → Except String PyObj
  pyExtract : PyObj → Except String (List Nat)
  decode : List Nat → Option (Layers × Nat)
  serializeLayers : Layers → String
  parseJson : String → Option Json
  stdin : Option String

/-- The verification block of `main` (`main.rs` lines 132-152): read all
of stdin, decode it as UTF-8, optionally echo it to stderr when verbose,
parse both documents, and panic with both full values on any difference.
`pre` is the event trace accumulated so far (the optional print of the
computed text), `j` the computed canonical text. -/
def verifyPhase {PyObj Layers : Type} (env : Env PyObj Layers) (opts : Opts)
    (pre : List Event) (j : String) : RunResult :=
  let ev := pre ++ [Event.readStdin]
  match env.stdin with
  | none => ⟨ev, .panicked "called Result::unwrap() on an Err value: invalid utf-8"⟩
  | some input =>
    let ev := ev ++ (if opts.verbose > 0 then [Event.printStderr ("Input: " ++ input)] else [])
    match env.parseJson input with
    | none => ⟨ev, .panicked "called Result::unwrap() on an Err value: oracle is not valid JSON"⟩
    | some j0 =>
      match env.parseJson j with
      | none => ⟨ev, .panicked "called Result::unwrap() on an Err value: computed text is not valid JSON"⟩
      | some j1 =>
        match compareJson j0 j1 with
        | .mismatch a b => ⟨ev, .panicked (mismatchMsg a b)⟩
        | .isMatch => ⟨ev, .exitCode 0⟩

/-- The body of `main` after the option-override block (`main.rs` lines
92-167), run with the effective options: interpreter construction, the
scapy import, expression evaluation, decode, serialization, the optional
print, and the optional stdin verification. -/
def runWithOpts {PyObj Layers : Type} (env : Env PyObj Layers) (opts : Opts) : RunResult :=
  match env.pyInit with
  | .error msg =>
      ⟨[.printStderr ("error instantiating embedded Python interpreter: " ++ msg)],
       .exitCode 1⟩
  | .ok () =>
    match env.pyRun "import scapy; from scapy.all import *" with
    | .error e => ⟨[], .panicked ("python error: " ++ e)⟩
    | .ok () =>
      match evalAdapter env.pyEval env.pyExtract opts.scapy_expr with
      | .error e => ⟨[], .panicked ("called Result::unwrap() on an Err value: " ++ e)⟩
      | .ok x =>
        match env.decode x with
        | none => ⟨[], .panicked "called Option::unwrap() on a None value"⟩
        | some (pkt, _) =>
          let j := env.serializeLayers pkt
          let pre : List Event := if opts.print_json then [.printStdout j] else []
          if opts.verify_json then verifyPhase env opts pre j
          else ⟨pre, .exitCode 0⟩

/-- The whole of `main` (`main.rs` lines 73-168): the option-override block
followed by the interpreter block, on the invocation options `opts0`. -/
def runMain {PyObj Layers : Type} (env : Env PyObj Layers) (opts0 : Opts) : RunResult :=
  match loadOverride opts0 env.fs with
  | .panicked => ⟨[], .panicked "called Result::unwrap() on an Err value: override document is neither valid JSON nor valid YAML"⟩
  | .ok opts => runWithOpts env opts

/-! ## The packet codec (spec §4.2)

The codec invoked on `main.rs` line 127 (`Ether!().decode(&x)`) lives in
the external `oside` crate, whose source is not part of this repository;
only its call site is. It is therefore modelled from the spec. -/

/-- Modelled from the spec: `DecodeError{layer_index, byte_offset, reason}`
of §4.2/§7; the decoder itself is in the external oside crate. -/
structure DecodeError where
  layer_index : Nat
  byte_offset : Nat
  reason : String
deriving DecidableEq

/-- A protocol identifier known to the codec's decoder registry. -/
inductive ProtoId where
  | ether
  | ipv4
  | udp
deriving DecidableEq

/-- Minimum header length of each protocol: Ethernet 14, IPv4 20, UDP 8. -/
def headerLen : ProtoId → Nat
  | .ether => 14
  | .ipv4 => 20
  | .udp => 8

/-- A typed field value of a decoded layer. -/
inductive FieldV where
  | num (n : Nat)
  | bytes (bs : List Nat)
deriving DecidableEq

/-- A decoded layer: protocol name plus the ordered field map read from
its header bytes ("Raw" for the final opaque payload layer). -/
structure DLayer where
  proto : String
  fields : List (String × FieldV)
deriving DecidableEq

/-- The next-protocol-identifier extraction rule of §4.2: a designated
header field (Ethernet's ethertype, IPv4's protocol byte) selects the
decoder of the following layer. -/
def nextProto : ProtoId → List Nat → Option ProtoId
  | .ether, hdr => if hdr.getD 12 0 * 256 + hdr.getD 13 0 = 2048 then some .ipv4 else none
  | .ipv4, hdr => if hdr.getD 9 0 = 17 then some .udp else none
  | .udp, _ => none

/-- The ordered field map read from one protocol header. -/
def mkFields : ProtoId → List Nat → List (String × FieldV)
  | .ether, hdr =>
      [("dst", .bytes (hdr.take 6)), ("src", .bytes ((hdr.drop 6).take 6)),
       ("etype", .num (hdr.getD 12 0 * 256 + hdr.getD 13 0))]
  | .ipv4, hdr =>
      [("version", .num (hdr.getD 0 0 / 16)), ("ihl", .num (hdr.getD 0 0 % 16)),
       ("tos", .num (hdr.getD 1 0)),
       ("len", .num (hdr.getD 2 0 * 256 + hdr.getD 3 0)),
       ("ttl", .num (hdr.getD 8 0)), ("proto", .num (hdr.getD 9 0)),
       ("src", .bytes ((hdr.drop 12).take 4)), ("dst", .bytes ((hdr.drop 16).take 4))]
  | .udp, hdr =>
      [("sport", .num (hdr.getD 0 0 * 256 + hdr.getD 1 0)),
       ("dport", .num (hdr.getD 2 0 * 256 + hdr.getD 3 0)),
       ("len", .num (hdr.getD 4 0 * 256 + hdr.getD 5 0)),
       ("chksum", .num (hdr.getD 6 0 * 256 + hdr.getD 7 0))]

/-- Printable name of each protocol. -/
def protoName : ProtoId → String
  | .ether => "Ether"
  | .ipv4 => "IP"
  | .udp => "UDP"

/-- The final opaque payload layer holding all remaining bytes. -/
def opaqueLayer (bs : List Nat) : DLayer :=
  ⟨"Raw", [("load", .bytes bs)]⟩

/-- The fixed maximum decode depth of §4.2. -/
def maxDecodeDepth : Nat := 16

/-- Modelled from the spec: the decode loop of §4.2 (the oside codec is
not part of this repository). Cursor `off` into the bytes, current
protocol, layer counter `idx`, explicit depth counter: fail with
"insufficient bytes for header" when fewer than the minimum header length
remain, record the layer's fields, extract the next protocol identifier,
recurse while it is known and bytes remain, otherwise record all
remaining bytes as a final opaque payload layer; a exhausted depth
counter fails with "excess nesting" instead of recursing unboundedly. -/
def decodeFrom : Nat → Nat → Nat → ProtoId → List Nat → Except DecodeError (List DLayer)
  | 0, idx, off, _, _ => .error ⟨idx, off, "excess nesting"⟩
  | fuel + 1, idx, off, p, bs =>
    if bs.length < headerLen p then
      .error ⟨idx, off, "insufficient bytes for header"⟩
    else
      let hdr := bs.take (headerLen p)
      let rest := bs.drop (headerLen p)
      let layer : DLayer := ⟨protoName p, mkFields p hdr⟩
      match nextProto p hdr with
      | some q =>
        if rest.length ≠ 0 then
          (decodeFrom fuel (idx + 1) (off + headerLen p) q rest).map (layer :: ·)
        else .ok [layer, opaqueLayer rest]
      | none => .ok [layer, opaqueLayer rest]

/-- Modelled from the spec: the packet codec's entry point (§4.2),
decoding a byte sequence from the declared outermost protocol. -/
def decodePacket (p : ProtoId) (bs : List Nat) : Except DecodeError (List DLayer) :=
  decodeFrom maxDecodeDepth 0 0 p bs

theorem decodeFrom_insufficient (fuel idx off : Nat) (p : ProtoId) (bs : List Nat)
    (hf : 0 < fuel) (hb : bs.length < headerLen p) :
    decodeFrom fuel idx off p bs = .error ⟨idx, off, "insufficient bytes for header"⟩ := by
  cases fuel with
  | zero => omega
  | succ n => simp [decodeFrom, hb]

/-! ## The canonical serializer (spec §4.3)

The serialization on `main.rs` line 128 (`serde_json::to_string(&pkt.layers)`)
derives its field order from the oside protocol structure definitions, which
are not part of this repository; the serializer is therefore modelled from
the spec. -/

/-- A typed field value held by a layer to be serialized. -/
inductive SField where
  | num (n : Int)
  | bytes (bs : List Nat)
deriving DecidableEq

/-- A layer as stored by the implementation: protocol name plus a field
map in whatever order the implementation's data structure happens to keep
it. -/
structure SLayer where
  protoNm : String
  fields : List (String × SField)
deriving DecidableEq

/-- Field lookup in a stored layer (the map interface of the storage). -/
def lookupField (f : String) (l : SLayer) : Option SField :=
  (l.fields.find? (fun kv => kv.1 = f)).map (fun kv => kv.2)

/-- Lowercase hexadecimal digit. -/
def hexDigit (n : Nat) : Char :=
  if n < 10 then Char.ofNat (48 + n) else Char.ofNat (87 + n)

/-- One byte as two lowercase hexadecimal digits. -/
def hexByte (b : Nat) : String :=
  String.mk [hexDigit (b / 16 % 16), hexDigit (b % 16)]

/-- A byte-string as lowercase hex text with the fixed "0x" prefix. -/
def hexText (bs : List Nat) : String :=
  "0x" ++ String.join (bs.map hexByte)

/-- Canonical rendering of one field value: numeric fields as JSON
numbers, byte-string fields as lowercase hex text. -/
def renderSField : Option SField → String
  | none => "null"
  | some (.num n) => toString n
  | some (.bytes bs) => "\x22" ++ hexText bs ++ "\x22"

/-- Modelled from the spec: the canonical serializer of one layer (§4.3;
the oside protocol definitions fixing the field order are not part of
this repository). `reg` is the protocol-definition registry giving each
protocol's fixed field order; the output object carries a `type` key
naming the protocol and then one key per field in definition order,
independent of the storage order of the layer's field map. -/
def serializeLayer (reg : String → List String) (l : SLayer) : String :=
  "\x7b\x22type\x22: \x22" ++ l.protoNm ++ "\x22" ++
    String.join ((reg l.protoNm).map
      (fun f => ", \x22" ++ f ++ "\x22: " ++ renderSField (lookupField f l))) ++ "\x7d"

/-- Modelled from the spec: the canonical serializer (§4.3) — an array of
per-layer objects in stack order. -/
def serializeStack (reg : String → List String) (ls : List SLayer) : String :=
  "[" ++ String.intercalate ", " (ls.map (serializeLayer reg)) ++ "]"

/-- Structural equality of stored layers as maps: same protocol and the
same field lookup results, regardless of storage order. -/
def layerEquiv (l1 l2 : SLayer) : Prop :=
  l1.protoNm = l2.protoNm ∧ ∀ f, lookupField f l1 = lookupField f l2

/-! ## Shared fixtures and helpers for the claim theorems -/

/-- The stdout lines of an event trace. -/
def stdoutOf (es : List Event) : List String :=
  es.filterMap (fun e => match e with | .printStdout s => some s | _ => none)

/-- Computed document of the first comparison example. -/
def c1ex0 : Json := .obj [("a", .num 1), ("b", .num 2)]

/-- Oracle document differing from `c1ex0` in exactly the field "b". -/
def c1ex1 : Json := .obj [("a", .num 1), ("b", .num 3)]

/-- C7: comparing a canonical value against itself always yields Match;
the comparison of `main.rs` lines 146-151 is reflexive and reports no
mismatch. -/
theorem c7_compare_self_is_match (j : Json) : compareJson j j = .isMatch := by
  simp [compareJson, Json.beq_refl j]

/-- C1 counterexample: the oracle `c1ex1` differs from the computed value
`c1ex0` in exactly one field ("b"), and the code's report is a Mismatch
whose payload is the two complete documents — not the differing field's
sub-values localized by a path naming that field; the report of `main.rs`
lines 147-150 contains no path at all. -/
theorem c1_counterexample :
    c1ex0 ≠ c1ex1 ∧
    compareJson c1ex0 c1ex1 = .mismatch c1ex0 c1ex1 ∧
    compareJson c1ex0 c1ex1 ≠ .mismatch (Json.num 2) (Json.num 3) := by
  refine ⟨by decide, by decide, by decide⟩

/-- C1 (amended): for every pair of differing canonical values the
comparison reports a Mismatch carrying both complete values (the full
expected and obtained documents); no path from the root to the differing
node is reported — a single-field mutation yields a Mismatch carrying the
two whole documents. -/
theorem c1_mismatch_carries_full_values (j0 j1 : Json) (h : j0 ≠ j1) :
    compareJson j0 j1 = .mismatch j0 j1 := by
  simp [compareJson, (Json.beq_eq_false_iff j0 j1).mpr h]

/-- C1 witness: the amended mismatch report at the concrete single-field
mutation. -/
theorem c1_mismatch_carries_full_values_witness :
    compareJson c1ex0 c1ex1 = .mismatch c1ex0 c1ex1 :=
  c1_mismatch_carries_full_values c1ex0 c1ex1 (by decide)

/-- C3: decoding is deterministic (a pure function) and total: every byte
sequence yields either a complete layer stack or a
`DecodeError{layer_index, byte_offset, reason}`; the empty byte sequence
under declared outer protocol Ethernet yields the error citing layer 0,
offset 0, "insufficient bytes for header", as does any sequence shorter
than the Ethernet header. -/
theorem c3_decode_total_and_empty_input :
    (∀ (p : ProtoId) (bs : List Nat),
      (∃ st, decodePacket p bs = .ok st) ∨ (∃ e, decodePacket p bs = .error e)) ∧
    decodePacket .ether [] = .error ⟨0, 0, "insufficient bytes for header"⟩ ∧
    (∀ bs : List Nat, bs.length < 14 →
      decodePacket .ether bs = .error ⟨0, 0, "insufficient bytes for header"⟩) := by
  refine ⟨?_, ?_, ?_⟩
  · intro p bs
    cases h : decodePacket p bs with
    | ok st => exact Or.inl ⟨st, rfl⟩
    | error e => exact Or.inr ⟨e, rfl⟩
  · exact decodeFrom_insufficient maxDecodeDepth 0 0 .ether [] (by decide) (by decide)
  · intro bs h
    exact decodeFrom_insufficient maxDecodeDepth 0 0 .ether bs (by decide)
      (by simpa [headerLen] using h)

/-- C3 witness: a three-byte input is shorter than the Ethernet header and
yields the truncation error at layer 0, offset 0. -/
theorem c3_decode_total_and_empty_input_witness :
    decodePacket .ether [0, 1, 2] = .error ⟨0, 0, "insufficient bytes for header"⟩ :=
  c3_decode_total_and_empty_input.2.2 [0, 1, 2] (by decide)

/-- C5: the evaluator adapter consults the runtime at exactly the
byte-conversion wrapping `bytes(<expr>)` of the expression, returns the
raw bytes on success, and on failure of either the evaluation (syntax
error, undefined symbol) or the byte extraction returns the typed error
value carrying the runtime's message. -/
theorem c5_adapter_wraps_and_errors_typed {PyObj : Type}
    (evalFn : String → Except String PyObj)
    (extractFn : PyObj → Except String (List Nat)) (expr : String) :
    (∀ obj bs, evalFn ("bytes(" ++ expr ++ ")") = .ok obj → extractFn obj = .ok bs →
      evalAdapter evalFn extractFn expr = .ok bs) ∧
    (∀ m, evalFn ("bytes(" ++ expr ++ ")") = .error m →
      evalAdapter evalFn extractFn expr = .error m) ∧
    (∀ obj m, evalFn ("bytes(" ++ expr ++ ")") = .ok obj → extractFn obj = .error m →
      evalAdapter evalFn extractFn expr = .error m) ∧
    (∀ evalFn' : String → Except String PyObj,
      evalFn' ("bytes(" ++ expr ++ ")") = evalFn ("bytes(" ++ expr ++ ")") →
      evalAdapter evalFn' extractFn expr = evalAdapter evalFn extractFn expr) := by
  refine ⟨?_, ?_, ?_, ?_⟩ <;> intros <;> simp_all [evalAdapter, Except.bind]

/-- Evaluation function of the C5 witness runtime: only the wrapped
expression is defined. -/
def c5ev : String → Except String Unit :=
  fun s => if s = "bytes(IP())" then .ok () else .error "NameError: undefined"

/-- Extraction function of the C5 witness runtime. -/
def c5ex : Unit → Except String (List Nat) := fun _ => .ok [69, 0]

/-- C5 witness: the adapter on expression `IP()` with a runtime defined
exactly at `bytes(IP())` returns that runtime's bytes. -/
theorem c5_adapter_wraps_and_errors_typed_witness :
    evalAdapter c5ev c5ex "IP()" = .ok [69, 0] :=
  (c5_adapter_wraps_and_errors_typed c5ev c5ex "IP()").1 () [69, 0] rfl rfl

/-! ## C6: serializer determinism -/

theorem serializeLayer_congr (reg : String → List String) (l1 l2 : SLayer)
    (h : layerEquiv l1 l2) : serializeLayer reg l1 = serializeLayer reg l2 := by
  obtain ⟨hn, hf⟩ := h
  simp only [serializeLayer, hn, hf]

/-- C6: the canonical serializer is deterministic — it is a pure function,
and any two layer stacks that are structurally equal as maps (same
protocols, same field lookups, regardless of the storage order of each
layer's field list) serialize to byte-identical canonical text; no part of
the output depends on iteration order of the field storage. -/
theorem c6_serialize_deterministic (reg : String → List String)
    (s1 s2 : List SLayer) (h : List.Forall₂ layerEquiv s1 s2) :
    serializeStack reg s1 = serializeStack reg s2 := by
  have hm : s1.map (serializeLayer reg) = s2.map (serializeLayer reg) := by
    induction h with
    | nil => rfl
    | cons hl ht ih => simp [serializeLayer_congr reg _ _ hl, ih]
  unfold serializeStack
  rw [hm]

theorem lookupField_pair_swap (n1 n2 a b : String) (x y : SField) (hab : a ≠ b)
    (f : String) :
    lookupField f ⟨n1, [(a, x), (b, y)]⟩ = lookupField f ⟨n2, [(b, y), (a, x)]⟩ := by
  by_cases ha : a = f <;> by_cases hb : b = f <;>
    simp [lookupField, List.find?, ha, hb]
  exact absurd (ha.trans hb.symm) hab

/-- Field order registry of the C6 witness. -/
def c6reg : String → List String := fun n => if n = "Ether" then ["dst", "src"] else []

/-- A layer stored with its fields in definition order. -/
def c6l1 : SLayer := ⟨"Ether", [("dst", .num 1), ("src", .num 2)]⟩

/-- The same layer stored with its fields in the opposite order. -/
def c6l2 : SLayer := ⟨"Ether", [("src", .num 2), ("dst", .num 1)]⟩

/-- C6 witness: the two storage orders of the same layer serialize to
byte-identical text. -/
theorem c6_serialize_deterministic_witness :
    serializeStack c6reg [c6l1] = serializeStack c6reg [c6l2] :=
  c6_serialize_deterministic c6reg [c6l1] [c6l2]
    (List.Forall₂.cons
      ⟨rfl, lookupField_pair_swap "Ether" "Ether" "dst" "src" (.num 1) (.num 2) (by decide)⟩
      List.Forall₂.nil)

/-! ## C2 and C8: the override loader -/

/-- Invocation options of the loader examples: an override file was named
on the command line. -/
def c2Opts : Opts := ⟨"Ether()/IP()/UDP()", some "cfg.yaml", false, false, 0⟩

/-- A parsed override document carrying every required field but with the
`options_override` field absent. -/
def c2DocNoOverride : OptsDoc := ⟨some "IP()", none, some true, some false, some 1⟩

/-- File system on which the override file reads but parses under neither
format. -/
def c2FsBad : String → Option RawDoc :=
  fun n => if n = "cfg.yaml" then some ⟨none, none⟩ else none

/-- File system on which the override file parses as JSON to
`c2DocNoOverride`. -/
def c2FsAbsent : String → Option RawDoc :=
  fun n => if n = "cfg.yaml" then some ⟨some c2DocNoOverride, none⟩ else none

/-- C2 counterexample: a readable override document that parses under
neither format makes line 83's `.unwrap()` panic — the load error is
fatal, not swallowed; and a document that parses but omits the
`options_override` field yields options whose `options_override` is `none`
rather than keeping the prior value — the document replaces the options
wholesale instead of overriding field-by-field. -/
theorem c2_counterexample :
    loadOverride c2Opts c2FsBad = .panicked ∧
    loadOverride c2Opts c2FsAbsent = .ok ⟨"IP()", none, true, false, 1⟩ ∧
    (Opts.mk "IP()" none true false 1).options_override ≠ c2Opts.options_override := by
  refine ⟨by decide, by decide, by decide⟩

/-- C2 (amended): an unreadable override file is non-fatal — the prior
defaults are kept; a readable document is deserialized as JSON and, on
failure, as YAML, and a successfully deserialized document replaces the
options wholesale: every non-optional field must be present (an absent one
is a parse failure, not a kept default) and an absent `options_override`
field becomes `none` rather than keeping its prior value; when both
parses fail the process panics. -/
theorem c2_override_load_behavior (opts : Opts) (fs : String → Option RawDoc) :
    (opts.options_override = none → loadOverride opts fs = .ok opts) ∧
    (∀ fname, opts.options_override = some fname → fs fname = none →
      loadOverride opts fs = .ok opts) ∧
    (∀ fname raw o, opts.options_override = some fname → fs fname = some raw →
      raw.jsonDoc.bind deserializeOpts = some o → loadOverride opts fs = .ok o) ∧
    (∀ fname raw o, opts.options_override = some fname → fs fname = some raw →
      raw.jsonDoc.bind deserializeOpts = none → raw.yamlDoc.bind deserializeOpts = some o →
      loadOverride opts fs = .ok o) ∧
    (∀ fname raw, opts.options_override = some fname → fs fname = some raw →
      raw.jsonDoc.bind deserializeOpts = none → raw.yamlDoc.bind deserializeOpts = none →
      loadOverride opts fs = .panicked) ∧
    (∀ d o, deserializeOpts d = some o →
      o.options_override = d.options_override.getD none ∧
      d.scapy_expr = some o.scapy_expr ∧ d.verbose = some o.verbose) := by
  refine ⟨?_, ?_, ?_, ?_, ?_, ?_⟩
  · intro h; simp [loadOverride, h]
  · intro fname h hf; simp [loadOverride, h, hf]
  · intro fname raw o h hf hj; simp [loadOverride, h, hf, hj]
  · intro fname raw o h hf hj hy; simp [loadOverride, h, hf, hj, hy]
  · intro fname raw h hf hj hy; simp [loadOverride, h, hf, hj, hy]
  · intro d o h
    unfold deserializeOpts at h
    rcases d with ⟨se, oo, pj, vj, vb⟩
    cases se <;> cases pj <;> cases vj <;> cases vb <;> simp_all
    exact ⟨h.symm ▸ rfl, h.symm ▸ rfl, h.symm ▸ rfl⟩

/-- C2 witness: an unreadable file keeps the prior options. -/
theorem c2_override_load_behavior_witness :
    loadOverride c2Opts (fun _ => none) = .ok c2Opts :=
  (c2_override_load_behavior c2Opts (fun _ => none)).2.1 "cfg.yaml" rfl rfl

/-- C8: the override document is deserialized first as JSON; when that
succeeds its result is used and the YAML parse outcome is never consulted
(replacing it changes nothing); only when the JSON deserialization fails
is the document deserialized as YAML. -/
theorem c8_json_tried_first (opts : Opts) (fs1 : String → Option RawDoc)
    (fname : String) (raw : RawDoc) :
    (∀ o, opts.options_override = some fname → fs1 fname = some raw →
      raw.jsonDoc.bind deserializeOpts = some o → loadOverride opts fs1 = .ok o) ∧
    (∀ fs2 raw2, opts.options_override = some fname → fs1 fname = some raw →
      fs2 fname = some raw2 → raw2.jsonDoc = raw.jsonDoc →
      (raw.jsonDoc.bind deserializeOpts).isSome →
      loadOverride opts fs1 = loadOverride opts fs2) ∧
    (∀ o, opts.options_override = some fname → fs1 fname = some raw →
      raw.jsonDoc.bind deserializeOpts = none → raw.yamlDoc.bind deserializeOpts = some o →
      loadOverride opts fs1 = .ok o) := by
  refine ⟨?_, ?_, ?_⟩
  · intro o h hf hj; simp [loadOverride, h, hf, hj]
  · intro fs2 raw2 h hf1 hf2 hjeq hs
    obtain ⟨o, ho⟩ := Option.isSome_iff_exists.mp hs
    simp [loadOverride, h, hf1, hf2, hjeq, ho]
  · intro o h hf hj hy; simp [loadOverride, h, hf, hj, hy]

/-- A second file system for the C8 witness: same JSON outcome for the
override file, different YAML outcome. -/
def c8FsAlt : String → Option RawDoc :=
  fun n => if n = "cfg.yaml" then some ⟨some c2DocNoOverride, some c2DocNoOverride⟩ else none

/-- C8 witness: with a successfully JSON-deserialized document, replacing
the YAML parse outcome does not change the loaded options. -/
theorem c8_json_tried_first_witness :
    loadOverride c2Opts c2FsAbsent = loadOverride c2Opts c8FsAlt :=
  (c8_json_tried_first c2Opts c2FsAbsent "cfg.yaml" ⟨some c2DocNoOverride, none⟩).2.1
    c8FsAlt ⟨some c2DocNoOverride, some c2DocNoOverride⟩ rfl rfl rfl rfl (by decide)

/-! ## Helper lemmas about the orchestrator -/

theorem stdoutOf_append (a b : List Event) :
    stdoutOf (a ++ b) = stdoutOf a ++ stdoutOf b := by
  simp [stdoutOf]

theorem verifyPhase_events {PyObj Layers : Type} (env : Env PyObj Layers) (opts : Opts)
    (pre : List Event) (j : String) :
    ∃ tail, (verifyPhase env opts pre j).events = pre ++ Event.readStdin :: tail ∧
      stdoutOf (Event.readStdin :: tail) = [] := by
  unfold verifyPhase
  cases hs : env.stdin with
  | none => exact ⟨[], by simp, by simp [stdoutOf]⟩
  | some input =>
    refine ⟨if opts.verbose > 0 then [Event.printStderr ("Input: " ++ input)] else [],
      ?_, ?_⟩
    · cases h0 : env.parseJson input with
      | none => simp [h0]
      | some j0 =>
        cases h1 : env.parseJson j with
        | none => simp [h0, h1]
        | some j1 =>
          cases hc : compareJson j0 j1 with
          | isMatch => simp [h0, h1, hc]
          | mismatch a b => simp [h0, h1, hc]
    · split <;> simp [stdoutOf]

theorem verifyPhase_outcome {PyObj Layers : Type} (env : Env PyObj Layers)
    (o1 o2 : Opts) (pre1 pre2 : List Event) (j : String) :
    (verifyPhase env o1 pre1 j).outcome = (verifyPhase env o2 pre2 j).outcome := by
  unfold verifyPhase
  cases hs : env.stdin with
  | none => rfl
  | some input =>
    cases h0 : env.parseJson input with
    | none => simp [h0]
    | some j0 =>
      cases h1 : env.parseJson j with
      | none => simp [h0, h1]
      | some j1 =>
        cases hc : compareJson j0 j1 <;> simp [h0, h1, hc]

theorem runWithOpts_congr {PyObj Layers : Type} (env : Env PyObj Layers) (o1 o2 : Opts)
    (hse : o1.scapy_expr = o2.scapy_expr) (hpj : o1.print_json = o2.print_json)
    (hvj : o1.verify_json = o2.verify_json) :
    (runWithOpts env o1).outcome = (runWithOpts env o2).outcome ∧
    stdoutOf (runWithOpts env o1).events = stdoutOf (runWithOpts env o2).events ∧
    (Event.readStdin ∈ (runWithOpts env o1).events ↔
      Event.readStdin ∈ (runWithOpts env o2).events) := by
  unfold runWithOpts
  rw [hse, hpj, hvj]
  cases hinit : env.pyInit with
  | error m => exact ⟨rfl, rfl, Iff.rfl⟩
  | ok u =>
    cases u
    cases hrun : env.pyRun "import scapy; from scapy.all import *" with
    | error e => simp [hinit, hrun]
    | ok u2 =>
      cases u2
      cases heval : evalAdapter env.pyEval env.pyExtract o2.scapy_expr with
      | error e => simp [hinit, hrun, heval]
      | ok x =>
        cases hdec : env.decode x with
        | none => simp [hinit, hrun, heval, hdec]
        | some pr =>
          obtain ⟨pkt, n⟩ := pr
          simp only [hinit, hrun, heval, hdec]
          by_cases hv : o2.verify_json = true
          · simp only [if_pos hv]
            refine ⟨verifyPhase_outcome env o1 o2 _ _ _, ?_, ?_⟩
            · obtain ⟨t1, he1, hs1⟩ := verifyPhase_events env o1
                (if o2.print_json = true then [Event.printStdout (env.serializeLayers pkt)] else [])
                (env.serializeLayers pkt)
              obtain ⟨t2, he2, hs2⟩ := verifyPhase_events env o2
                (if o2.print_json = true then [Event.printStdout (env.serializeLayers pkt)] else [])
                (env.serializeLayers pkt)
              rw [he1, he2, stdoutOf_append, stdoutOf_append, hs1, hs2]
            · obtain ⟨t1, he1, hs1⟩ := verifyPhase_events env o1
                (if o2.print_json = true then [Event.printStdout (env.serializeLayers pkt)] else [])
                (env.serializeLayers pkt)
              obtain ⟨t2, he2, hs2⟩ := verifyPhase_events env o2
                (if o2.print_json = true then [Event.printStdout (env.serializeLayers pkt)] else [])
                (env.serializeLayers pkt)
              rw [he1, he2]
              simp
          · simp [if_neg hv]

/-- C10: when the (effective) verify flag is not set the run never reads
standard input; the stdin read happens only under verification; and when
printing is requested and stdin is read, the computed canonical text is
printed before the oracle is read. -/
theorem c10_stdin_only_for_verify {PyObj Layers : Type} (env : Env PyObj Layers)
    (opts : Opts) :
    (opts.verify_json = false → Event.readStdin ∉ (runWithOpts env opts).events) ∧
    (Event.readStdin ∈ (runWithOpts env opts).events → opts.verify_json = true) ∧
    (opts.print_json = true → Event.readStdin ∈ (runWithOpts env opts).events →
      ∃ s rest, (runWithOpts env opts).events = Event.printStdout s :: rest ∧
        Event.readStdin ∈ rest) := by
  have hA : opts.verify_json = false → Event.readStdin ∉ (runWithOpts env opts).events := by
    intro hv
    unfold runWithOpts
    cases hinit : env.pyInit with
    | error m => simp [hinit]
    | ok u =>
      cases u
      cases hrun : env.pyRun "import scapy; from scapy.all import *" with
      | error e => simp [hinit, hrun]
      | ok u2 =>
        cases u2
        cases heval : evalAdapter env.pyEval env.pyExtract opts.scapy_expr with
        | error e => simp [hinit, hrun, heval]
        | ok x =>
          cases hdec : env.decode x with
          | none => simp [hinit, hrun, heval, hdec]
          | some pr =>
            obtain ⟨pkt, n⟩ := pr
            simp only [hinit, hrun, heval, hdec]
            rw [if_neg (by simp [hv])]
            split <;> simp
  have hB : Event.readStdin ∈ (runWithOpts env opts).events → opts.verify_json = true := by
    intro hm
    cases hvb : opts.verify_json with
    | false => exact absurd hm (hA hvb)
    | true => rfl
  refine ⟨hA, hB, ?_⟩
  intro hp hm
  have hv := hB hm
  revert hm
  unfold runWithOpts
  cases hinit : env.pyInit with
  | error m => intro hm; simp [hinit] at hm
  | ok u =>
    cases u
    cases hrun : env.pyRun "import scapy; from scapy.all import *" with
    | error e => intro hm; simp [hinit, hrun] at hm
    | ok u2 =>
      cases u2
      cases heval : evalAdapter env.pyEval env.pyExtract opts.scapy_expr with
      | error e => intro hm; simp [hinit, hrun, heval] at hm
      | ok x =>
        cases hdec : env.decode x with
        | none => intro hm; simp [hinit, hrun, heval, hdec] at hm
        | some pr =>
          obtain ⟨pkt, n⟩ := pr
          simp only [hinit, hrun, heval, hdec]
          simp only [hv, hp, eq_self_iff_true, if_true]
          obtain ⟨tail, he, hst⟩ := verifyPhase_events env opts
            [Event.printStdout (env.serializeLayers pkt)] (env.serializeLayers pkt)
          intro hm
          exact ⟨env.serializeLayers pkt, Event.readStdin :: tail, by simp [he], by simp⟩

/-- C9: two invocations differing only in the verbosity level have the
same terminal outcome (exit status or panic message, hence the same
success or failure kind, computed canonical value, and comparison result)
and the same stdout trace and stdin use; verbosity gates only the
diagnostic stderr echo. -/
theorem c9_verbosity_gates_only_echo {PyObj Layers : Type} (env : Env PyObj Layers)
    (opts : Opts) (v1 v2 : Int) :
    (runMain env { opts with verbose := v1 }).outcome
      = (runMain env { opts with verbose := v2 }).outcome ∧
    stdoutOf (runMain env { opts with verbose := v1 }).events
      = stdoutOf (runMain env { opts with verbose := v2 }).events ∧
    (Event.readStdin ∈ (runMain env { opts with verbose := v1 }).events ↔
      Event.readStdin ∈ (runMain env { opts with verbose := v2 }).events) := by
  obtain ⟨se, oo, pj, vj, vb⟩ := opts
  unfold runMain loadOverride
  cases oo with
  | none => exact runWithOpts_congr env _ _ rfl rfl rfl
  | some fname =>
    cases hf : env.fs fname with
    | none => simp only [hf]; exact runWithOpts_congr env _ _ rfl rfl rfl
    | some raw =>
      cases hj : raw.jsonDoc.bind deserializeOpts with
      | some o => simp [hf, hj]
      | none =>
        cases hy : raw.yamlDoc.bind deserializeOpts with
        | some o => simp [hf, hj, hy]
        | none => simp [hf, hj, hy]

/-- C4: given the effective options, the process exits 0 on full success
(including a confirmed match under verification); exits with the distinct
non-zero status 1 when the interpreter handle cannot be constructed; and
aborts by panic — with the diagnostic message carrying the error context,
and for a mismatch both full values — on evaluation failure, decode
failure, or comparison mismatch. -/
theorem c4_exit_status {PyObj Layers : Type} (env : Env PyObj Layers) (opts0 opts : Opts)
    (hload : loadOverride opts0 env.fs = .ok opts) :
    (∀ m, env.pyInit = .error m →
      (runMain env opts0).outcome = .exitCode 1 ∧
      Outcome.exitCode 1 ≠ Outcome.exitCode 0 ∧ (∀ s, Outcome.exitCode 1 ≠ .panicked s)) ∧
    (∀ x pkt n, env.pyInit = .ok () →
      env.pyRun "import scapy; from scapy.all import *" = .ok () →
      evalAdapter env.pyEval env.pyExtract opts.scapy_expr = .ok x →
      env.decode x = some (pkt, n) →
      (opts.verify_json = false → (runMain env opts0).outcome = .exitCode 0) ∧
      (∀ input j0 j1, opts.verify_json = true → env.stdin = some input →
        env.parseJson input = some j0 →
        env.parseJson (env.serializeLayers pkt) = some j1 →
        (j0 = j1 → (runMain env opts0).outcome = .exitCode 0) ∧
        (j0 ≠ j1 → (runMain env opts0).outcome = .panicked (mismatchMsg j0 j1)))) ∧
    (∀ m, env.pyInit = .ok () →
      env.pyRun "import scapy; from scapy.all import *" = .ok () →
      evalAdapter env.pyEval env.pyExtract opts.scapy_expr = .error m →
      (runMain env opts0).outcome =
        .panicked ("called Result::unwrap() on an Err value: " ++ m)) ∧
    (∀ x, env.pyInit = .ok () →
      env.pyRun "import scapy; from scapy.all import *" = .ok () →
      evalAdapter env.pyEval env.pyExtract opts.scapy_expr = .ok x →
      env.decode x = none →
      (runMain env opts0).outcome = .panicked "called Option::unwrap() on a None value") := by
  have hrm : runMain env opts0 = runWithOpts env opts := by
    unfold runMain
    rw [hload]
  refine ⟨?_, ?_, ?_, ?_⟩
  · intro m hm
    rw [hrm]
    unfold runWithOpts
    refine ⟨by simp [hm], by simp, fun s => by simp⟩
  · intro x pkt n hinit hrun heval hdec
    rw [hrm]
    unfold runWithOpts
    simp only [hinit, hrun, heval, hdec]
    constructor
    · intro hvf
      rw [if_neg (by simp [hvf])]
    · intro input j0 j1 hvt hstdin hp0 hp1
      rw [if_pos (by simp [hvt])]
      unfold verifyPhase
      simp only [hstdin, hp0, hp1]
      constructor
      · intro he
        subst he
        simp [compareJson, Json.beq_refl]
      · intro hne
        simp [compareJson, (Json.beq_eq_false_iff j0 j1).mpr hne]
  · intro m hinit hrun heval
    rw [hrm]
    unfold runWithOpts
    simp [hinit, hrun, heval]
  · intro x hinit hrun heval hdec
    rw [hrm]
    unfold runWithOpts
    simp [hinit, hrun, heval, hdec]

/-! ## Concrete environments for the orchestrator witnesses -/

/-- Invocation options with neither printing nor verification. -/
def exOptsPlain : Opts := ⟨"e", none, false, false, 0⟩

/-- Invocation options requesting printing and verification. -/
def exOptsVerify : Opts := ⟨"e", none, true, true, 0⟩

/-- A fully successful concrete environment: evaluation yields one byte,
decoding succeeds, the serialized text and the stdin oracle both parse to
the empty JSON array. -/
def exEnv : Env Unit Unit :=
  ⟨fun _ => none, .ok (), fun _ => .ok (), fun _ => .ok (), fun _ => .ok [0],
   fun _ => some ((), 1), fun _ => "[]",
   fun s => if s = "[]" then some (Json.arr [])
     else if s = "[1]" then some (Json.arr [Json.num 1]) else none,
   some "[]"⟩

/-- `exEnv` with interpreter construction failing. -/
def exEnvInitFail : Env Unit Unit := { exEnv with pyInit := .error "boom" }

/-- `exEnv` with expression evaluation failing. -/
def exEnvEvalFail : Env Unit Unit :=
  { exEnv with pyEval := fun _ => .error "SyntaxError: invalid syntax" }

/-- `exEnv` with the decode step failing. -/
def exEnvDecodeFail : Env Unit Unit := { exEnv with decode := fun _ => none }

/-- `exEnv` with a stdin oracle differing from the computed value. -/
def exEnvMismatch : Env Unit Unit := { exEnv with stdin := some "[1]" }

/-- C4 witness: the concrete exit statuses — 0 on plain success and on a
confirmed match, 1 on interpreter-construction failure, panic with the
diagnostic message on evaluation failure, decode failure, and mismatch. -/
theorem c4_exit_status_witness :
    (runMain exEnvInitFail exOptsPlain).outcome = .exitCode 1 ∧
    (runMain exEnv exOptsPlain).outcome = .exitCode 0 ∧
    (runMain exEnv exOptsVerify).outcome = .exitCode 0 ∧
    (runMain exEnvEvalFail exOptsPlain).outcome =
      .panicked ("called Result::unwrap() on an Err value: " ++ "SyntaxError: invalid syntax") ∧
    (runMain exEnvDecodeFail exOptsPlain).outcome =
      .panicked "called Option::unwrap() on a None value" ∧
    (runMain exEnvMismatch exOptsVerify).outcome =
      .panicked (mismatchMsg (Json.arr [Json.num 1]) (Json.arr [])) := by
  refine ⟨?_, ?_, ?_, ?_, ?_, ?_⟩
  · exact ((c4_exit_status exEnvInitFail exOptsPlain exOptsPlain rfl).1 "boom" rfl).1
  · exact (((c4_exit_status exEnv exOptsPlain exOptsPlain rfl).2.1 [0] () 1
      rfl rfl rfl rfl).1 rfl)
  · exact ((((c4_exit_status exEnv exOptsVerify exOptsVerify rfl).2.1 [0] () 1
      rfl rfl rfl rfl).2 "[]" (Json.arr []) (Json.arr [])
      rfl rfl (by decide) (by decide)).1 rfl)
  · exact ((c4_exit_status exEnvEvalFail exOptsPlain exOptsPlain rfl).2.2.1
      "SyntaxError: invalid syntax" rfl rfl rfl)
  · exact ((c4_exit_status exEnvDecodeFail exOptsPlain exOptsPlain rfl).2.2.2
      [0] rfl rfl rfl rfl)
  · exact ((((c4_exit_status exEnvMismatch exOptsVerify exOptsVerify rfl).2.1 [0] () 1
      rfl rfl rfl rfl).2 "[1]" (Json.arr [Json.num 1]) (Json.arr [])
      rfl rfl (by decide) (by decide)).2 (by decide))

/-- C10 witness: the plain run never reads stdin, and the
print-and-verify run prints the computed text before reading stdin. -/
theorem c10_stdin_only_for_verify_witness :
    Event.readStdin ∉ (runWithOpts exEnv exOptsPlain).events ∧
    (∃ s rest, (runWithOpts exEnv exOptsVerify).events = Event.printStdout s :: rest ∧
      Event.readStdin ∈ rest) := by
  constructor
  · exact (c10_stdin_only_for_verify exEnv exOptsPlain).1 rfl
  · exact (c10_stdin_only_for_verify exEnv exOptsVerify).2.2 rfl (by decide)
